import Mathlib

/-!
Verification of `build.py` (pve-img-maker): an interactive QCOW2 image
builder with a dry-run mode.  The script is embedded shallowly:

* the two curses selection loops (`tui_single_select`,
  `tui_ordered_multi_select`) become state machines folded over a list of
  key events;
* `run_cmd` becomes a function from the dry-run flag and an argument
  vector to a list of observable effects;
* `main` becomes a function from an abstract filesystem environment, the
  run timestamp and the key-event lists to the ordered list of actions the
  run performs (commands issued, directories created, messages printed,
  fatal exits); a separate interpreter expands each action into effects
  exactly as the Python code does under the global `DRY_RUN` flag.
-/

namespace Build

/-- Configuration constant `IMAGE_SIZE = '32G'` (build.py line 11). -/
def IMAGE_SIZE : String := "32G"

/-- Configuration constant `DOWNLOAD_DIR` (build.py line 12).  The Python
code applies `os.path.abspath` to `./download`; absolute-path resolution
depends on the process working directory and is immaterial to every claim,
so the embedding keeps the literal path. -/
def DOWNLOAD_DIR : String := "./download"

/-- Configuration constant `OUTPUT_DIR` (build.py line 13), same
convention as `DOWNLOAD_DIR`. -/
def OUTPUT_DIR : String := "./output"

/-- Configuration constant `WORKDIR_BASE = '/dev/shm/build'` (line 14). -/
def WORKDIR_BASE : String := "/dev/shm/build"

/-- The `BASE_IMAGE_URLS` dict (build.py lines 16-19), as an association
list in insertion order (Python dicts preserve insertion order, and
`list(BASE_IMAGE_URLS.keys())` yields the keys in that order). -/
def BASE_IMAGE_URLS : List (String × String) :=
  [("debian-13",
    "https://cdimage.debian.org/images/cloud/trixie/latest/debian-13-genericcloud-amd64.qcow2"),
   ("ubuntu-2204",
    "https://cloud-images.ubuntu.com/jammy/current/jammy-server-cloudimg-amd64.img")]

/-- `os.path.join(a, b)` for the non-absolute second arguments used by the
script. -/
def path_join (a b : String) : String := a ++ "/" ++ b

/-- `os.path.basename(p)`: the final component of a slash-separated path.
`String.splitOn` never returns an empty list, so the default is never
used. -/
def basename (p : String) : String := (p.splitOn "/").getLastD p

/-- The single formatted command string `' '.join(cmd)` that `run_cmd`
derives from the argument vector (build.py lines 26, 28, 29): a plain
space-join, no quoting or escaping of the arguments. -/
def fmtCmd (cmd : List String) : String := String.intercalate " " cmd

/-- Observable primitive effects of a run. `exec s` is `os.system(s)`,
`mkdir p` is `os.makedirs(p, exist_ok=True)`, `exit s` is `sys.exit(s)`
(which prints the diagnostic and terminates with a non-zero status). -/
inductive Effect where
  | print (s : String)
  | exec (s : String)
  | mkdir (p : String)
  | exit (s : String)
  deriving DecidableEq, Repr

/-- `run_cmd(cmd)` (build.py lines 24-29).  The Python function reads the
global `DRY_RUN` flag; here the flag is an explicit first argument.  In
dry-run mode it only prints the formatted command prefixed by
`[Dry Run] $ `; in real mode it prints the command prefixed by `$ ` and
hands the very same formatted string to the shell. -/
def runCmd (dryRun : Bool) (cmd : List String) : List Effect :=
  if dryRun then
    [Effect.print ("[Dry Run] $ " ++ fmtCmd cmd)]
  else
    [Effect.print ("$ " ++ fmtCmd cmd), Effect.exec (fmtCmd cmd)]

/-- Key events fed to the curses loops: arrow up, arrow down, the space
bar (toggle, multi-select only).  The Enter key terminates the loop and is
modelled by the end of the event list; any other key leaves the state
unchanged and is represented by `other`. -/
inductive Key where
  | up
  | down
  | space
  | other
  deriving DecidableEq, Repr

/-- One transition of the single-select cursor (build.py lines 44-47):
up decrements only when the cursor is strictly positive, down increments
only when the cursor is strictly below the last index; every other key
leaves the cursor unchanged. -/
def singleStep (n : Nat) (selected : Nat) (k : Key) : Nat :=
  match k with
  | Key.up => if selected > 0 then selected - 1 else selected
  | Key.down => if selected < n - 1 then selected + 1 else selected
  | _ => selected

/-- `tui_single_select(prompt, options)` (build.py lines 31-51): fold the
key events from cursor 0, then return `options[selected]`.  The Python
indexing would raise `IndexError` on an empty options list; the total
embedding returns `none` there. -/
def tui_single_select (options : List String) (keys : List Key) : Option String :=
  let selected := keys.foldl (singleStep options.length) 0
  options[selected]?

/-- State of `tui_ordered_multi_select` (build.py lines 53-89): the cursor
`current` and the ordered list `selected` of chosen options. -/
structure MultiState where
  current : Nat
  selected : List String
  deriving DecidableEq, Repr

/-- One transition of the ordered multi-select loop (build.py lines
76-85).  Up/down clamp exactly as in the single-select loop; space toggles
membership of `options[current]` in `selected`: `selected.remove(x)` when
present (erase the first occurrence), `selected.append(x)` when absent.
With a non-empty options list the cursor is always in bounds (proved
below), so the `none` branch of the lookup is never taken; it returns the
state unchanged. -/
def multiStep (options : List String) (st : MultiState) (k : Key) : MultiState :=
  match k with
  | Key.up => if st.current > 0 then { st with current := st.current - 1 } else st
  | Key.down =>
      if st.current < options.length - 1 then { st with current := st.current + 1 } else st
  | Key.space =>
      match options[st.current]? with
      | none => st
      | some opt =>
          if opt ∈ st.selected then { st with selected := st.selected.erase opt }
          else { st with selected := st.selected ++ [opt] }
  | Key.other => st

/-- `tui_ordered_multi_select(options)` (build.py lines 53-89): fold the
key events from cursor 0 and an empty selection; on Enter the loop breaks
and the function returns `selected` as-is. -/
def tui_ordered_multi_select (options : List String) (keys : List Key) : MultiState :=
  keys.foldl (multiStep options) { current := 0, selected := [] }

/-- The pipeline assembly `scripts = ['base'] + middle_scripts + ['clean']`
(build.py line 115). -/
def assemble (middle_scripts : List String) : List String :=
  ["base"] ++ middle_scripts ++ ["clean"]

/-- The build-identity computation of build.py lines 145-146:
`tag = os_tag + ('-' + '-'.join(middle_scripts) if middle_scripts else '')`
followed by the stem `f"{tag}-{timestamp}"`. -/
def deriveIdentity (osTag : String) (orderedTags : List String) (timestamp : String) : String :=
  let tag :=
    osTag ++ (if orderedTags.isEmpty then "" else "-" ++ String.intercalate "-" orderedTags)
  tag ++ "-" ++ timestamp

/-- Insert into an already-sorted list, keeping equal elements stable. -/
def insertSorted (a : String) : List String → List String
  | [] => [a]
  | b :: bs => if a ≤ b then a :: b :: bs else b :: insertSorted a bs

/-- Python's `sorted` on strings (build.py line 110): stable sort by the
lexicographic order. -/
def pySorted (l : List String) : List String := l.foldr insertSorted []

/-- The primitive steps `main` performs, in order.  `run cmd` is a call of
`run_cmd(cmd)` with the given argument vector (how it expands into
effects depends on the dry-run flag, see `interpAction`); `mkdirs p` is
`os.makedirs(p, exist_ok=True)`; `printMsg s` is `print(s)`; `exitMsg s`
is `sys.exit(s)`, which aborts the run with a non-zero status after
printing the diagnostic. -/
inductive Action where
  | run (cmd : List String)
  | mkdirs (p : String)
  | printMsg (s : String)
  | exitMsg (s : String)
  deriving DecidableEq, Repr

/-- The filesystem as `main` observes it: `os.path.isfile`,
`os.path.exists` and `os.listdir`. -/
structure Env where
  isFile : String → Bool
  pathExists : String → Bool
  listdir : String → List String

/-- The optional-script catalog (build.py lines 110-113): every regular
file in the script directory other than `base` and `clean`, sorted by
name. -/
def catalogScripts (env : Env) (script_dir : String) : List String :=
  pySorted ((env.listdir script_dir).filter
    (fun f => env.isFile (path_join script_dir f) && f != "base" && f != "clean"))

/-- `middle_scripts` (build.py line 114): the multi-select's ordered
selection over the catalog, or `[]` when the catalog is empty (the loop is
not entered at all in that case). -/
def chosenMiddle (env : Env) (multiKeys : List Key) (script_dir : String) : List String :=
  let all_scripts := catalogScripts env script_dir
  if all_scripts.isEmpty then []
  else (tui_ordered_multi_select all_scripts multiKeys).selected

/-- The body of `main` (build.py lines 96-150) after the OS tag has been
returned by the single-select loop, as the ordered list of actions the
run performs.  `multiKeys` is the key-event sequence fed to the
multi-select loop (used only when the optional-script catalog is
non-empty, mirroring line 114). -/
def mainWithOs (env : Env) (timestamp : String) (multiKeys : List Key)
    (os_tag : String) : List Action :=
  let base_url := ((BASE_IMAGE_URLS.lookup os_tag).getD "")
  let base_name := basename base_url
  let base_path := path_join DOWNLOAD_DIR base_name
  let script_dir := path_join "script" os_tag
  -- Validate script files (lines 102-107)
  let base_script := path_join script_dir "base"
  let clean_script := path_join script_dir "clean"
  if ¬ env.isFile base_script then [Action.exitMsg ("Missing script: " ++ base_script)]
  else if ¬ env.isFile clean_script then [Action.exitMsg ("Missing script: " ++ clean_script)]
  else
    -- Choose customization scripts (lines 110-115)
    let middle_scripts := chosenMiddle env multiKeys script_dir
    let scripts := assemble middle_scripts
    -- Prepare directories (lines 118-121)
    let workdir := path_join WORKDIR_BASE timestamp
    [Action.mkdirs DOWNLOAD_DIR, Action.mkdirs OUTPUT_DIR, Action.mkdirs workdir] ++
    -- Download if needed (lines 124-127)
    (if ¬ env.pathExists base_path then [Action.run ["axel", base_url, "-o", base_path]]
     else [Action.printMsg ("Using existing image: " ++ base_path)]) ++
    -- Image paths, build and customize, compress (lines 130-142)
    (let image_path := path_join workdir (timestamp ++ ".img")
    let compressed_path := path_join workdir (timestamp ++ "-compressed.img")
    [Action.run ["qemu-img", "create", "-f", "qcow2", image_path, IMAGE_SIZE],
     Action.run ["virt-resize", "--expand", "/dev/sda1", base_path, image_path],
     Action.run (["virt-customize", "-a", image_path] ++
       scripts.flatMap (fun s => ["--commands-from-file", path_join script_dir s])),
     Action.run ["virt-sparsify", "--compress", "--tmp", "/dev/shm/", image_path,
       compressed_path]] ++
    -- Final file name, publish, cleanup (lines 145-150)
    (let final_img := deriveIdentity os_tag middle_scripts timestamp ++ ".img"
    let final_dest := path_join OUTPUT_DIR final_img
    [Action.run ["cp", compressed_path, final_dest],
     Action.run ["rm", "-rf", workdir],
     Action.printMsg ("\nFinal image ready at: " ++ final_dest)]))

/-- `main()` (build.py lines 91-150) as the ordered list of actions it
performs.  `osKeys` drives the OS single-select loop over
`list(BASE_IMAGE_URLS.keys())`.  That options list is a non-empty constant,
so the selection always yields an option (`tui_single_select_some` below);
the `none` branch is unreachable. -/
def main (env : Env) (timestamp : String) (osKeys multiKeys : List Key) : List Action :=
  match tui_single_select (BASE_IMAGE_URLS.map Prod.fst) osKeys with
  | none => []
  | some os_tag => mainWithOs env timestamp multiKeys os_tag

/-- How one action expands into observable effects, given the global
`DRY_RUN` flag: exactly the branches of `run_cmd` for commands, and the
direct effect otherwise. -/
def interpAction (dryRun : Bool) : Action → List Effect
  | Action.run cmd => runCmd dryRun cmd
  | Action.mkdirs p => [Effect.mkdir p]
  | Action.printMsg s => [Effect.print s]
  | Action.exitMsg s => [Effect.exit s]

/-- The full effect trace of a run: each action in order, expanded under
the dry-run flag. -/
def runTrace (dryRun : Bool) (acts : List Action) : List Effect :=
  acts.flatMap (interpAction dryRun)

/-- The shell strings executed in a trace (the payloads of `os.system`
calls). -/
def execStrings (tr : List Effect) : List String :=
  tr.filterMap (fun e => match e with | Effect.exec s => some s | _ => none)

/-- The directory-creating effects in a trace (the `os.makedirs`
payloads). -/
def mkdirPaths (tr : List Effect) : List String :=
  tr.filterMap (fun e => match e with | Effect.mkdir p => some p | _ => none)

/-- Is this action a call of `run_cmd` whose argument vector invokes the
downloader `axel`? -/
def isAcquisition (a : Action) : Bool :=
  match a with
  | Action.run cmd => cmd.head? == some "axel"
  | _ => false

/-- Number of acquisition (`axel`) commands issued by a list of actions. -/
def acquisitionCount (acts : List Action) : Nat :=
  (acts.filter isAcquisition).length

/-- The spec's description of the command formatter, for the refinement
comparison with `fmtCmd`: the space-join of the argument vector, no
quoting or escaping. -/
def specFormattedCommand (argv : List String) : String := String.intercalate " " argv

/-! ## Helper lemmas about the selection loops -/

theorem singleStep_lt {n : Nat} (sel : Nat) (hs : sel < n) (k : Key) :
    singleStep n sel k < n := by
  cases k <;> simp only [singleStep] <;> (try split) <;> omega

theorem foldl_singleStep_lt {n : Nat} (keys : List Key) (sel : Nat) (hs : sel < n) :
    keys.foldl (singleStep n) sel < n := by
  induction keys generalizing sel with
  | nil => exact hs
  | cons k ks ih => exact ih _ (singleStep_lt sel hs k)

theorem multiStep_space_some {options : List String} (st : MultiState) {opt : String}
    (hg : options[st.current]? = some opt) :
    multiStep options st Key.space =
      if opt ∈ st.selected then { st with selected := st.selected.erase opt }
      else { st with selected := st.selected ++ [opt] } := by
  simp only [multiStep, hg]

theorem multiStep_space_none {options : List String} (st : MultiState)
    (hg : options[st.current]? = none) :
    multiStep options st Key.space = st := by
  simp only [multiStep, hg]

theorem multiStep_current_lt {options : List String} {st : MultiState}
    (hs : st.current < options.length) (k : Key) :
    (multiStep options st k).current < options.length := by
  cases k with
  | up =>
      simp only [multiStep]
      split
      · exact lt_of_le_of_lt (Nat.sub_le _ _) hs
      · exact hs
  | down =>
      simp only [multiStep]
      split
      · next h => show st.current + 1 < options.length; omega
      · exact hs
  | space =>
      cases hg : options[st.current]? with
      | none => rw [multiStep_space_none st hg]; exact hs
      | some opt => rw [multiStep_space_some st hg]; split <;> exact hs
  | other => exact hs

theorem foldl_multiStep_current_lt {options : List String} (keys : List Key)
    (st : MultiState) (hs : st.current < options.length) :
    (keys.foldl (multiStep options) st).current < options.length := by
  induction keys generalizing st with
  | nil => exact hs
  | cons k ks ih => exact ih _ (multiStep_current_lt hs k)

theorem multiStep_selected_inv {options : List String} {st : MultiState}
    (hnd : st.selected.Nodup) (hmem : ∀ x ∈ st.selected, x ∈ options) (k : Key) :
    (multiStep options st k).selected.Nodup ∧
      ∀ x ∈ (multiStep options st k).selected, x ∈ options := by
  cases k with
  | up => simp only [multiStep]; split <;> exact ⟨hnd, hmem⟩
  | down => simp only [multiStep]; split <;> exact ⟨hnd, hmem⟩
  | other => exact ⟨hnd, hmem⟩
  | space =>
      cases hg : options[st.current]? with
      | none => rw [multiStep_space_none st hg]; exact ⟨hnd, hmem⟩
      | some opt =>
          rw [multiStep_space_some st hg]
          by_cases hin : opt ∈ st.selected
          · rw [if_pos hin]
            exact ⟨hnd.erase opt, fun x hx => hmem x (List.mem_of_mem_erase hx)⟩
          · rw [if_neg hin]
            refine ⟨by simp [List.nodup_append, hnd, hin], fun x hx => ?_⟩
            rcases List.mem_append.mp hx with h1 | h1
            · exact hmem x h1
            · rw [List.mem_singleton] at h1
              exact h1 ▸ List.getElem?_mem hg

theorem tui_multi_selected_inv (options : List String) (keys : List Key) :
    (tui_ordered_multi_select options keys).selected.Nodup ∧
      ∀ x ∈ (tui_ordered_multi_select options keys).selected, x ∈ options := by
  suffices h : ∀ st : MultiState, st.selected.Nodup → (∀ x ∈ st.selected, x ∈ options) →
      (keys.foldl (multiStep options) st).selected.Nodup ∧
        ∀ x ∈ (keys.foldl (multiStep options) st).selected, x ∈ options by
    exact h { current := 0, selected := [] } List.nodup_nil (by simp)
  induction keys with
  | nil => exact fun st hnd hmem => ⟨hnd, hmem⟩
  | cons k ks ih =>
      intro st hnd hmem
      obtain ⟨hnd', hmem'⟩ := multiStep_selected_inv hnd hmem k
      exact ih _ hnd' hmem'

theorem multi_double_toggle {options : List String} {st : MultiState} {opt : String}
    (hnd : st.selected.Nodup) (hg : options[st.current]? = some opt)
    (hin : opt ∈ st.selected) :
    (multiStep options (multiStep options st Key.space) Key.space).selected
      = st.selected.erase opt ++ [opt] := by
  have h1 : multiStep options st Key.space = { st with selected := st.selected.erase opt } := by
    rw [multiStep_space_some st hg, if_pos hin]
  rw [h1]
  have hg' : options[({ st with selected := st.selected.erase opt } : MultiState).current]?
      = some opt := hg
  rw [multiStep_space_some _ hg', if_neg hnd.not_mem_erase]

/-! ## Claims about the pipeline assembler, naming deriver and runner -/

/-- Claim C1: for every ordered selection, the assembled pipeline equals
`[base] ++ orderedChosen ++ [clean]`: first stage `base`, last stage
`clean`, interior exactly the selection in selection order; an empty
selection yields exactly `[base, clean]` of length 2. -/
theorem claim1_pipeline_anchored (mid : List String) :
    assemble mid = ["base"] ++ mid ++ ["clean"] ∧
    (assemble mid).head? = some "base" ∧
    (assemble mid).getLast? = some "clean" ∧
    ((assemble mid).drop 1).dropLast = mid ∧
    (mid = [] → assemble mid = ["base", "clean"] ∧ (assemble mid).length = 2) := by
  refine ⟨rfl, rfl, ?_, ?_, ?_⟩
  · exact List.getLast?_concat ("base" :: mid)
  · simp [assemble]
  · rintro rfl; exact ⟨rfl, rfl⟩

theorem claim1_pipeline_anchored_witness :
    assemble [] = ["base", "clean"] ∧ (assemble []).length = 2 :=
  (claim1_pipeline_anchored []).2.2.2.2 rfl

/-- Claim C6: `deriveIdentity` yields `osTag ++ "-" ++ timestamp` when the
tag list is empty, and `osTag ++ "-" ++ join(tags, "-") ++ "-" ++ timestamp`
otherwise, with the two concrete examples from the spec. -/
theorem claim6_deriveIdentity_spec (o t : String) (tags : List String) :
    (tags = [] → deriveIdentity o tags t = o ++ "-" ++ t) ∧
    (tags ≠ [] →
      deriveIdentity o tags t = o ++ "-" ++ String.intercalate "-" tags ++ "-" ++ t) ∧
    deriveIdentity "ubuntu-2204" [] "20240101_000000" = "ubuntu-2204-20240101_000000" ∧
    deriveIdentity "debian-13" ["net", "users"] "20240101_000000" =
      "debian-13-net-users-20240101_000000" := by
  refine ⟨?_, ?_, by rfl, by rfl⟩
  · rintro rfl; simp [deriveIdentity]
  · intro h
    cases tags with
    | nil => exact absurd rfl h
    | cons a l => simp [deriveIdentity, String.append_assoc]

theorem claim6_deriveIdentity_spec_witness :
    deriveIdentity "ubuntu-2204" [] "20240101_000000" = "ubuntu-2204" ++ "-" ++ "20240101_000000" ∧
    deriveIdentity "debian-13" ["net", "users"] "20240101_000000" =
      "debian-13" ++ "-" ++ String.intercalate "-" ["net", "users"] ++ "-" ++ "20240101_000000" :=
  ⟨(claim6_deriveIdentity_spec "ubuntu-2204" "20240101_000000" []).1 rfl,
   (claim6_deriveIdentity_spec "debian-13" "20240101_000000" ["net", "users"]).2.1 (by decide)⟩

/-- Claim C2: the chosen list of the ordered multi-select never contains an
option twice, every chosen element is one of the presented options, and
toggling a chosen option off and then on again appends it at the end of
the chosen list (so [A, B, C] minus A plus A yields [B, C, A]). -/
theorem claim2_multi_select_invariants (options : List String) (keys : List Key) :
    (tui_ordered_multi_select options keys).selected.Nodup ∧
    (∀ x ∈ (tui_ordered_multi_select options keys).selected, x ∈ options) ∧
    (∀ st : MultiState, st.selected.Nodup →
      ∀ opt : String, options[st.current]? = some opt → opt ∈ st.selected →
        (multiStep options (multiStep options st Key.space) Key.space).selected
          = st.selected.erase opt ++ [opt]) ∧
    (tui_ordered_multi_select ["A", "B", "C"]
        [Key.space, Key.down, Key.space, Key.down, Key.space,
         Key.up, Key.up, Key.space, Key.space]).selected = ["B", "C", "A"] :=
  ⟨(tui_multi_selected_inv options keys).1, (tui_multi_selected_inv options keys).2,
   fun _ hnd _ hg hin => multi_double_toggle hnd hg hin, by decide⟩

theorem claim2_multi_select_invariants_witness :
    (tui_ordered_multi_select ["A"] [Key.space]).selected.Nodup ∧
    (multiStep ["A"] (multiStep ["A"] { current := 0, selected := ["A"] } Key.space)
        Key.space).selected = (["A"].erase "A") ++ ["A"] :=
  ⟨(claim2_multi_select_invariants ["A"] [Key.space]).1,
   (claim2_multi_select_invariants ["A"] [Key.space]).2.2.1
     { current := 0, selected := ["A"] } (by decide) "A" (by decide) (by decide)⟩

/-- Claim C8: for every non-empty options list and every event sequence,
the cursor satisfies `0 ≤ cursor < len(options)` after every transition of
either loop (`0 ≤` is automatic here since the cursor is a `Nat`, and the
source's guards keep the Python int non-negative), and up at the first
option and down at the last option leave the cursor unchanged: clamping,
no wraparound. -/
theorem claim8_cursor_clamped (options : List String) (h : 0 < options.length)
    (keys : List Key) :
    keys.foldl (singleStep options.length) 0 < options.length ∧
    (tui_ordered_multi_select options keys).current < options.length ∧
    singleStep options.length 0 Key.up = 0 ∧
    singleStep options.length (options.length - 1) Key.down = options.length - 1 ∧
    (∀ st : MultiState, st.current = 0 → (multiStep options st Key.up).current = 0) ∧
    (∀ st : MultiState, st.current = options.length - 1 →
      (multiStep options st Key.down).current = options.length - 1) := by
  refine ⟨foldl_singleStep_lt keys 0 h, foldl_multiStep_current_lt keys _ h, ?_, ?_, ?_, ?_⟩
  · simp [singleStep]
  · simp [singleStep]
  · intro st hst; simp [multiStep, hst]
  · intro st hst; simp [multiStep, hst]

theorem claim8_cursor_clamped_witness :
    [Key.down, Key.down].foldl (singleStep (["a", "b"].length)) 0 < ["a", "b"].length ∧
    singleStep (["a", "b"].length) 0 Key.up = 0 :=
  ⟨(claim8_cursor_clamped ["a", "b"] (by decide) [Key.down, Key.down]).1,
   (claim8_cursor_clamped ["a", "b"] (by decide) [Key.down, Key.down]).2.2.1⟩

/-- Claim C9: on confirmation the single-select loop returns the option at
the cursor; the Python indexing has no value on an empty options list, so
the total embedding returns `none` exactly there, and a non-empty options
list guarantees the result is `some` member of the options. -/
theorem claim9_single_select_totality (options : List String) (keys : List Key) :
    tui_single_select [] keys = none ∧
    (0 < options.length →
      ∃ o, tui_single_select options keys = some o ∧ o ∈ options) := by
  constructor
  · simp [tui_single_select]
  · intro h
    have hlt := foldl_singleStep_lt (n := options.length) keys 0 h
    exact ⟨options.get ⟨keys.foldl (singleStep options.length) 0, hlt⟩,
      List.getElem?_eq_getElem hlt, List.get_mem _ _ _⟩

theorem claim9_single_select_totality_witness :
    tui_single_select [] [Key.down] = none ∧
    ∃ o, tui_single_select ["debian-13", "ubuntu-2204"] [Key.down] = some o ∧
      o ∈ ["debian-13", "ubuntu-2204"] :=
  ⟨(claim9_single_select_totality ["debian-13", "ubuntu-2204"] [Key.down]).1,
   (claim9_single_select_totality ["debian-13", "ubuntu-2204"] [Key.down]).2 (by decide)⟩

/-- The OS selection always succeeds: `list(BASE_IMAGE_URLS.keys())` is a
non-empty constant list. -/
theorem tui_single_select_os_some (keys : List Key) :
    ∃ t, tui_single_select (BASE_IMAGE_URLS.map Prod.fst) keys = some t ∧
      t ∈ BASE_IMAGE_URLS.map Prod.fst := by
  have h : 0 < (BASE_IMAGE_URLS.map Prod.fst).length := by simp [BASE_IMAGE_URLS]
  have hlt := foldl_singleStep_lt (n := (BASE_IMAGE_URLS.map Prod.fst).length) keys 0 h
  exact ⟨_, List.getElem?_eq_getElem hlt, List.get_mem _ _ _⟩

/-- Claim C10: `run_cmd` derives one formatted string — the plain
space-join of the argument vector (the spec-side `specFormattedCommand`),
no quoting or escaping — and the dry-run report carries exactly the string
that real mode hands to the shell; the modes differ only in whether that
string is executed (dry mode executes nothing). -/
theorem claim10_runCmd_report_matches_exec (cmd : List String) :
    ∃ s : String, s = specFormattedCommand cmd ∧ fmtCmd cmd = s ∧
      runCmd true cmd = [Effect.print ("[Dry Run] $ " ++ s)] ∧
      runCmd false cmd = [Effect.print ("$ " ++ s), Effect.exec s] ∧
      execStrings (runCmd true cmd) = [] ∧
      execStrings (runCmd false cmd) = [s] :=
  ⟨fmtCmd cmd, rfl, rfl, rfl, rfl, rfl, rfl⟩

/-! ## Concrete filesystem environments used by witnesses -/

/-- A filesystem where every queried path exists and is a regular file, and
the script directory listing holds a single optional script `net`. -/
def envCache : Env :=
  { isFile := fun _ => true, pathExists := fun _ => true, listdir := fun _ => ["net"] }

/-- A filesystem with no files at all. -/
def envNoFiles : Env :=
  { isFile := fun _ => false, pathExists := fun _ => false, listdir := fun _ => [] }

/-- A filesystem where the anchor scripts exist but the base image has not
been downloaded yet and the optional catalog is empty. -/
def envNoCache : Env :=
  { isFile := fun _ => true, pathExists := fun _ => false, listdir := fun _ => [] }

/-! ## Helper lemmas about run traces -/

theorem runTrace_cons (dryRun : Bool) (a : Action) (l : List Action) :
    runTrace dryRun (a :: l) = interpAction dryRun a ++ runTrace dryRun l := by
  simp [runTrace]

theorem execStrings_append (t1 t2 : List Effect) :
    execStrings (t1 ++ t2) = execStrings t1 ++ execStrings t2 := by
  simp [execStrings]

theorem runTrace_dry_no_exec (acts : List Action) :
    execStrings (runTrace true acts) = [] := by
  induction acts with
  | nil => rfl
  | cons a l ih =>
      rw [runTrace_cons, execStrings_append, ih]
      cases a <;> simp [interpAction, runCmd, execStrings]

/-! ## Claims about the orchestrated run -/

/-- Claim C3 counterexample: with every path already present and the
dry-run flag set, the run's effect trace still contains `os.makedirs`
directory creations (the download, output and per-run workspace
directories, build.py lines 118-121), so a complete dry build run does
not perform zero filesystem mutations. -/
theorem claim3_dry_run_counterexample :
    Effect.mkdir (path_join WORKDIR_BASE "t") ∈ runTrace true (main envCache "t" [] []) ∧
    mkdirPaths (runTrace true (main envCache "t" [] [])) ≠ [] := by
  decide

/-- Claim C3 (amended): in dry-run mode no external command is ever
invoked — the trace hands nothing to the shell, so no download, image
create, resize, customize, compress, copy or remove runs and the run makes
no network call — and every command the orchestrator issues appears in the
trace formatted and reported with the `[Dry Run] $ ` prefix; however the
run itself still creates the download, output and workspace directories
via `os.makedirs` even in dry-run mode. -/
theorem claim3_dry_run_reports_only (env : Env) (timestamp : String)
    (osKeys multiKeys : List Key) :
    execStrings (runTrace true (main env timestamp osKeys multiKeys)) = [] ∧
    (∀ cmd, Action.run cmd ∈ main env timestamp osKeys multiKeys →
      Effect.print ("[Dry Run] $ " ++ fmtCmd cmd) ∈
        runTrace true (main env timestamp osKeys multiKeys)) := by
  refine ⟨runTrace_dry_no_exec _, fun cmd hmem => ?_⟩
  have h : Effect.print ("[Dry Run] $ " ++ fmtCmd cmd)
      ∈ interpAction true (Action.run cmd) := by
    simp [interpAction, runCmd]
  exact List.mem_flatMap.mpr ⟨Action.run cmd, hmem, h⟩

theorem claim3_dry_run_reports_only_witness :
    execStrings (runTrace true (main envCache "t" [] [])) = [] ∧
    Effect.print ("[Dry Run] $ " ++ fmtCmd ["rm", "-rf", path_join WORKDIR_BASE "t"]) ∈
      runTrace true (main envCache "t" [] []) :=
  ⟨(claim3_dry_run_reports_only envCache "t" [] []).1,
   (claim3_dry_run_reports_only envCache "t" [] []).2
     ["rm", "-rf", path_join WORKDIR_BASE "t"] (by decide)⟩

theorem mainWithOs_missing_base {env : Env} (timestamp : String) (multiKeys : List Key)
    (os_tag : String)
    (hb : env.isFile (path_join (path_join "script" os_tag) "base") = false) :
    mainWithOs env timestamp multiKeys os_tag =
      [Action.exitMsg ("Missing script: " ++ path_join (path_join "script" os_tag) "base")] := by
  simp [mainWithOs, hb]

theorem mainWithOs_missing_clean {env : Env} (timestamp : String) (multiKeys : List Key)
    (os_tag : String)
    (hb : env.isFile (path_join (path_join "script" os_tag) "base") = true)
    (hc : env.isFile (path_join (path_join "script" os_tag) "clean") = false) :
    mainWithOs env timestamp multiKeys os_tag =
      [Action.exitMsg ("Missing script: " ++ path_join (path_join "script" os_tag) "clean")] := by
  simp [mainWithOs, hb, hc]

/-- Claim C4: if the base or the clean anchor script is not a regular file
under the OS-tag script directory, the run is exactly one `sys.exit`
action (non-zero exit status) whose diagnostic names the missing file; on
this path the trace contains no directory creation and no executed
command, and no acquisition command is issued — the filesystem gains no
workspace entry. -/
theorem claim4_missing_anchor_aborts (env : Env) (timestamp : String)
    (multiKeys : List Key) (os_tag : String)
    (h : env.isFile (path_join (path_join "script" os_tag) "base") = false ∨
         env.isFile (path_join (path_join "script" os_tag) "clean") = false) :
    ∃ missing, (missing = path_join (path_join "script" os_tag) "base" ∨
        missing = path_join (path_join "script" os_tag) "clean") ∧
      env.isFile missing = false ∧
      mainWithOs env timestamp multiKeys os_tag
        = [Action.exitMsg ("Missing script: " ++ missing)] ∧
      mkdirPaths (runTrace false (mainWithOs env timestamp multiKeys os_tag)) = [] ∧
      execStrings (runTrace false (mainWithOs env timestamp multiKeys os_tag)) = [] ∧
      acquisitionCount (mainWithOs env timestamp multiKeys os_tag) = 0 := by
  by_cases hb : env.isFile (path_join (path_join "script" os_tag) "base") = true
  · have hc : env.isFile (path_join (path_join "script" os_tag) "clean") = false := by
      rcases h with h1 | h1
      · rw [hb] at h1; cases h1
      · exact h1
    have he := mainWithOs_missing_clean timestamp multiKeys os_tag hb hc
    refine ⟨path_join (path_join "script" os_tag) "clean", Or.inr rfl, hc, he, ?_, ?_, ?_⟩ <;>
      rw [he] <;> rfl
  · have hb' : env.isFile (path_join (path_join "script" os_tag) "base") = false := by
      cases hfb : env.isFile (path_join (path_join "script" os_tag) "base")
      · rfl
      · exact absurd hfb hb
    have he := mainWithOs_missing_base timestamp multiKeys os_tag hb'
    refine ⟨path_join (path_join "script" os_tag) "base", Or.inl rfl, hb', he, ?_, ?_, ?_⟩ <;>
      rw [he] <;> rfl

theorem claim4_missing_anchor_aborts_witness :
    ∃ missing, (missing = path_join (path_join "script" "debian-13") "base" ∨
        missing = path_join (path_join "script" "debian-13") "clean") ∧
      envNoFiles.isFile missing = false ∧
      mainWithOs envNoFiles "t" [] "debian-13"
        = [Action.exitMsg ("Missing script: " ++ missing)] ∧
      mkdirPaths (runTrace false (mainWithOs envNoFiles "t" [] "debian-13")) = [] ∧
      execStrings (runTrace false (mainWithOs envNoFiles "t" [] "debian-13")) = [] ∧
      acquisitionCount (mainWithOs envNoFiles "t" [] "debian-13") = 0 :=
  claim4_missing_anchor_aborts envNoFiles "t" [] "debian-13" (Or.inl rfl)

/-- Claim C7: acquisition is cache-conditional (build.py lines 124-127):
when a file of the expected name already exists at the download-directory
path for the selected OS, the run issues no acquisition (`axel`) command;
when it is absent, the run issues exactly one. -/
theorem claim7_acquisition_conditional (env : Env) (timestamp : String)
    (multiKeys : List Key) (os_tag : String)
    (hb : env.isFile (path_join (path_join "script" os_tag) "base") = true)
    (hc : env.isFile (path_join (path_join "script" os_tag) "clean") = true) :
    acquisitionCount (mainWithOs env timestamp multiKeys os_tag) =
      if env.pathExists (path_join DOWNLOAD_DIR
          (basename ((BASE_IMAGE_URLS.lookup os_tag).getD ""))) then 0 else 1 := by
  by_cases hp : env.pathExists (path_join DOWNLOAD_DIR
      (basename ((BASE_IMAGE_URLS.lookup os_tag).getD ""))) = true
  · simp [mainWithOs, hb, hc, hp, acquisitionCount, isAcquisition]
  · rw [Bool.not_eq_true] at hp
    simp [mainWithOs, hb, hc, hp, acquisitionCount, isAcquisition]

theorem claim7_acquisition_conditional_witness :
    acquisitionCount (mainWithOs envCache "t" [] "debian-13") = 0 ∧
    acquisitionCount (mainWithOs envNoCache "t" [] "debian-13") = 1 := by
  constructor
  · have h := claim7_acquisition_conditional envCache "t" [] "debian-13" rfl rfl
    simpa using h
  · have h := claim7_acquisition_conditional envNoCache "t" [] "debian-13" rfl rfl
    simpa using h

/-- Claim C5 counterexample: a concrete run (OS `debian-13`, one selected
customization `net`, timestamp `20240101_000000`) whose final artifact
stem is the identity `debian-13-net-20240101_000000`, while the workspace
directory created is `WORKDIR_BASE/20240101_000000` — keyed by the
timestamp only — and no directory named by the full identity string is
ever created; so the identity string is not the workspace key. -/
theorem claim5_identity_counterexample :
    Action.run ["cp",
        path_join (path_join WORKDIR_BASE "20240101_000000")
          ("20240101_000000-compressed.img"),
        path_join OUTPUT_DIR ("debian-13-net-20240101_000000" ++ ".img")]
      ∈ main envCache "20240101_000000" [] [Key.space] ∧
    Action.mkdirs (path_join WORKDIR_BASE "20240101_000000")
      ∈ main envCache "20240101_000000" [] [Key.space] ∧
    Action.mkdirs (path_join WORKDIR_BASE "debian-13-net-20240101_000000")
      ∉ main envCache "20240101_000000" [] [Key.space] ∧
    ("debian-13-net-20240101_000000" : String) ≠ "20240101_000000" := by
  decide

/-- Claim C5 (amended): the build identity — OS tag, then the
hyphen-joined ordered customization tags (omitted when empty), then the
timestamp — is the final artifact filename stem (the publish `cp` copies
to `OUTPUT_DIR/<identity>.img`), but the per-run workspace directory is
keyed by the timestamp alone (`WORKDIR_BASE/<timestamp>`), not by the full
identity string. -/
theorem claim5_identity_artifact_stem (env : Env) (timestamp : String)
    (multiKeys : List Key) (os_tag : String)
    (hb : env.isFile (path_join (path_join "script" os_tag) "base") = true)
    (hc : env.isFile (path_join (path_join "script" os_tag) "clean") = true) :
    Action.mkdirs (path_join WORKDIR_BASE timestamp)
      ∈ mainWithOs env timestamp multiKeys os_tag ∧
    Action.run ["cp",
        path_join (path_join WORKDIR_BASE timestamp) (timestamp ++ "-compressed.img"),
        path_join OUTPUT_DIR
          (deriveIdentity os_tag (chosenMiddle env multiKeys (path_join "script" os_tag))
            timestamp ++ ".img")]
      ∈ mainWithOs env timestamp multiKeys os_tag := by
  constructor <;> simp [mainWithOs, hb, hc]

theorem claim5_identity_artifact_stem_witness :
    Action.mkdirs (path_join WORKDIR_BASE "20240101_000000")
      ∈ mainWithOs envCache "20240101_000000" [Key.space] "debian-13" ∧
    Action.run ["cp",
        path_join (path_join WORKDIR_BASE "20240101_000000")
          ("20240101_000000" ++ "-compressed.img"),
        path_join OUTPUT_DIR
          (deriveIdentity "debian-13"
            (chosenMiddle envCache [Key.space] (path_join "script" "debian-13"))
            "20240101_000000" ++ ".img")]
      ∈ mainWithOs envCache "20240101_000000" [Key.space] "debian-13" :=
  claim5_identity_artifact_stem envCache "20240101_000000" [Key.space] "debian-13" rfl rfl

end Build
